import Mathlib

/-!
Shallow embedding of `mcp_helper.py` (google-bigquery-mcp): the MCP request
router, tool registry, tool-call dispatcher, and the SQL
generation/validation/execution pipeline.

External collaborators (the BigQuery client, the Gemini HTTP endpoint, the
`json` codec applied to string-encoded arguments, `datetime.now`, and the
pandas table renderer) are modelled as components of an `Env` record: each
field records the outcome the external call would produce.  Python
exceptions are modelled with `Except PyExc`; a Python function that can
raise returns `Except PyExc α`, one that cannot returns `α` directly.
Machine floats of the source are modelled as exact rationals `ℚ`.
-/

/-- Python exceptions, restricted to the classes the source distinguishes:
`ValueError` (raised for missing arguments / missing credentials),
`GoogleAPICallError` (the BigQuery API-error channel caught at
`mcp_helper.py:354`), and any other `Exception` (caught at line 360). -/
inductive PyExc where
  | valueError (msg : String)
  | googleAPICallError (msg : String)
  | otherError (msg : String)
deriving DecidableEq

/-- A decoded `arguments` mapping (Python `dict` with string values), as the
tool handlers consume it via `arguments.get(key)`. -/
abbrev Args := List (String × String)

/-- Python `arguments.get(key)`: `None` when the key is absent. -/
def lookupArg (a : Args) (k : String) : Option String :=
  (a.find? (fun p => p.1 = k)).map (fun p => p.2)

/-- Python truthiness test `not x` for an optional string: `None` and the
empty string are falsy. -/
def pyFalsy : Option String → Bool
  | none => true
  | some s => s.isEmpty

/-- Python `str(x)` for an optional string: `str(None) = "None"`. -/
def pyStrOpt : Option String → String
  | none => "None"
  | some s => s

/-- Simplified model of CPython `repr` for a string: single-quoted, with
backslash, quote, newline, tab and carriage return escaped. -/
def pyReprStr (s : String) : String :=
  let esc := s.toList.foldr
    (fun c acc =>
      (if c = '\\' then "\\\\"
       else if c = '\x27' then "\\\x27"
       else if c = '\n' then "\\n"
       else if c = '\t' then "\\t"
       else if c = '\r' then "\\r"
       else String.singleton c) ++ acc) ""
  "\x27" ++ esc ++ "\x27"

/-- One BigQuery schema field as returned by `SchemaField.to_api_repr()`:
a dict with keys `name`, `type`, `mode` (all string-valued). -/
structure SchemaField where
  name : String
  typ : String
  mode : String
deriving DecidableEq

/-- Python `str` of one `to_api_repr()` dict. -/
def pyReprSchemaField (f : SchemaField) : String :=
  "\x7b" ++ pyReprStr "name" ++ ": " ++ pyReprStr f.name ++ ", " ++
    pyReprStr "type" ++ ": " ++ pyReprStr f.typ ++ ", " ++
    pyReprStr "mode" ++ ": " ++ pyReprStr f.mode ++ "\x7d"

/-- Python `str` of the schema list of dicts. -/
def pyReprSchemaList (l : List SchemaField) : String :=
  "[" ++ String.intercalate ", " (l.map pyReprSchemaField) ++ "]"

/-- The dict returned by `generate_sql_query` (`mcp_helper.py:488-498`):
keys `sql_query`, `user_query`, `status`. -/
structure GeneratedQuery where
  sql_query : String
  user_query : String
  status : String
deriving DecidableEq

/-- Python `str` of the `GeneratedQuery` dict. -/
def pyStrGeneratedQuery (g : GeneratedQuery) : String :=
  "\x7b" ++ pyReprStr "sql_query" ++ ": " ++ pyReprStr g.sql_query ++ ", " ++
    pyReprStr "user_query" ++ ": " ++ pyReprStr g.user_query ++ ", " ++
    pyReprStr "status" ++ ": " ++ pyReprStr g.status ++ "\x7d"

/-- The dict returned by `check_query_validity_and_cost`
(`mcp_helper.py:346-366`).  The three shapes share a record with optional
fields: a `none` field is a key absent from the Python dict, and reading an
absent key raises `KeyError`. -/
structure CostEstimate where
  status : String
  message : String
  estimated_cost_usd : Option ℚ
  bytes_processed : Option ℕ
  error_details : Option String
deriving DecidableEq

/-- Outcome of the BigQuery dry-run call `client.query(q, dry_run=True)`
(`mcp_helper.py:339`): success with a total-bytes-processed count, a raised
`GoogleAPICallError` (the API-error channel: BadRequest, Forbidden,
NotFound, ...), or any other raised exception. -/
inductive DryRunOutcome where
  | ok (totalBytesProcessed : ℕ)
  | raiseAPI (msg : String)
  | raiseOther (msg : String)
deriving DecidableEq

/-- Python `round(x, 6)` over exact rationals: round to six decimal places,
to the nearest multiple of `10⁻⁶`.  (CPython rounds the binary float
half-to-even; over `ℚ` we take the floor of `x·10⁶ + 1/2` — the two agree
away from exact half-way points.) -/
def round6 (q : ℚ) : ℚ := ((⌊q * 1000000 + 1 / 2⌋ : ℤ) : ℚ) / 1000000

/-- Embedding of `check_query_validity_and_cost` (`mcp_helper.py:330-366`),
with the dry-run client call abstracted to its outcome.  `try` success
yields `VALID` with the cost projection; `except GoogleAPICallError` yields
`INVALID`; `except Exception` yields `ERROR`. -/
def check_query_validity_and_cost (d : DryRunOutcome) : CostEstimate :=
  match d with
  | .ok bytes_processed =>
    let terabytes : ℚ := (bytes_processed : ℚ) / 1024 ^ 4
    let price_per_tb : ℚ := 6.25
    let estimated_cost := terabytes * price_per_tb
    { status := "VALID"
      message := "This query is valid."
      estimated_cost_usd := some (round6 estimated_cost)
      bytes_processed := some bytes_processed
      error_details := none }
  | .raiseAPI m =>
    { status := "INVALID"
      message := "The query cannot be executed."
      estimated_cost_usd := none
      bytes_processed := none
      error_details := some m }
  | .raiseOther m =>
    { status := "ERROR"
      message := "An unexpected system error occurred."
      estimated_cost_usd := none
      bytes_processed := none
      error_details := some m }

example :
    round6 ((2199023255552 : ℚ) / 1024 ^ 4 * 6.25) = 25 / 2 := by
  norm_num [round6]

example :
    (check_query_validity_and_cost (.ok 2199023255552)).estimated_cost_usd =
      some (25 / 2) := by
  norm_num [check_query_validity_and_cost, round6]

/-- Zero-pad a natural number to six decimal digits. -/
def natPad6 (n : ℕ) : String :=
  let s := toString n
  String.mk (List.replicate (6 - s.length) '0') ++ s

/-- Drop trailing `'0'` characters. -/
def dropTrailingZeros (l : List Char) : List Char :=
  (l.reverse.dropWhile (fun c => c = '0')).reverse

/-- Display model of Python `str` on the float interpolated into the VALID
message: integer part, a dot, and the fractional digits with trailing zeros
trimmed (at least one digit).  Exact for the six-decimal rationals produced
by `round6`. -/
def pyStrQ (q : ℚ) : String :=
  let a : ℚ := |q|
  let ip : ℤ := ⌊a⌋
  let frac : ℤ := ⌊(a - (ip : ℚ)) * 1000000⌋
  let digits := dropTrailingZeros (natPad6 frac.toNat).toList
  (if q < 0 then "-" else "") ++ toString ip ++ "." ++
    (if digits.isEmpty then "0" else String.mk digits)

/-- One scalar value of a BigQuery result row, tagged by the Python type it
arrives as: JSON-native values, `datetime.date`/`datetime.datetime`
(carrying its `isoformat()` text), `decimal.Decimal`, or anything else
(carrying its `str()` form). -/
inductive Cell where
  | jstr (s : String)
  | jnum (q : ℚ)
  | jbool (b : Bool)
  | jnull
  | date (isoformat : String)
  | dec (value : ℚ)
  | other (strForm : String)
deriving DecidableEq

/-- Embedding of `json_serializable_converter` (`mcp_helper.py:594-603`)
composed with the `json.dumps`/`json.loads` round trip of
`run_sql_query_via_bq_api`: dates become their ISO-8601 text, `Decimal`
becomes a number (`float(obj)`, modelled exactly over `ℚ`), any other
non-native object becomes its string form, and JSON-native values pass
through the codec unchanged. -/
def json_serializable_converter : Cell → Cell
  | .date isoformat => .jstr isoformat
  | .dec value => .jnum value
  | .other strForm => .jstr strForm
  | c => c

/-- One dataset as seen through `client.list_datasets` /
`client.list_tables`: its id, and the outcome of listing its tables (a
table-id list, or the message of the exception the listing raised). -/
structure Dataset where
  dataset_id : String
  tables : Except String (List String)

/-- The request sent to the Gemini endpoint (`mcp_helper.py:398-422`): the
system instruction and the single user turn.  The fixed sampling
configuration (temperature 0.1, topK 40, topP 0.95, maxOutputTokens 4096)
and the 30-second timeout are constants of the source and carry no
information. -/
structure GeminiRequest where
  system_instruction : String
  userText : String

/-- A decoded Gemini response: the texts
`result["candidates"][i]["content"]["parts"][0]["text"]`; an empty list is
the `"candidates" not in result or len == 0` case. -/
structure GeminiResponse where
  candidates : List String

/-- Outcome of `requests.post` to the Gemini endpoint: a decoded response,
or a raised `requests.exceptions.RequestException` (transport failure,
timeout, or a `raise_for_status` error). -/
inductive PostOutcome where
  | ok (resp : GeminiResponse)
  | requestException (msg : String)

/-- The external collaborators of one request, each modelled by the outcome
its call would produce: the `json` codec for string-encoded arguments, the
BigQuery client (dataset listing, table metadata, dry run, real run), the
`GOOGLE_AI_KEY` environment variable, `datetime.now`, the Gemini endpoint,
and the pandas `DataFrame.to_string` renderer. -/
structure Env where
  jsonDecode : String → Option Args
  datasets : Except String (List Dataset)
  getTable : Option String → Except PyExc (List SchemaField)
  googleAIKey : Option String
  now : String
  post : GeminiRequest → PostOutcome
  dryRun : String → DryRunOutcome
  runQuery : Option String → Except PyExc (List (List (String × Cell)))
  renderTable : List (List (String × Cell)) → String

/-- The fixed project identifier (`mcp_helper.py:41`). -/
def project_id : String := "INSERT_YOUR_GOOGLE_CLOUD_PROJECT_ID"

/-- Embedding of `get_list_of_datasets_by_project_id`
(`mcp_helper.py:225-272`).  The `arguments` mapping is accepted and never
read.  A dataset-listing failure returns the error string; an empty dataset
list short-circuits; a per-dataset table-listing failure degrades to an
inline annotation.  (The odd literals reproduce the source file's bytes.) -/
def get_list_of_datasets_by_project_id (arguments : Args) (env : Env) : String :=
  match env.datasets with
  | .error e => "Error accessing project \x27" ++ project_id ++ "\x27: " ++ e
  | .ok datasets =>
    if datasets.isEmpty then "No datasets found in this project."
    else
      let output_lines :=
        ["--- Inspecting Project: " ++ project_id ++ " ---"] ++
        datasets.flatMap (fun dataset =>
          ("\nðŸ“‚ Dataset: " ++ dataset.dataset_id) ::
          (match dataset.tables with
           | .ok tables =>
             if tables.isEmpty then ["   â””â”€â”€ (No tables in this dataset)"]
             else tables.map (fun table => "   â””â”€â”€ ðŸ“„ Table: " ++ table)
           | .error e => ["   â””â”€â”€ [Error listing tables: " ++ e ++ "]"]))
      let joined_data := String.intercalate "\n" output_lines
      "This following datasets live in the user\x27s Google BigQuery Account:\n    " ++
        project_id ++ "\n\n    Here are the datasets:\n    " ++ joined_data ++
        "\n\n    Important: It is important that you reference this project_id (" ++
        project_id ++
        ") when you return this data. This project_id helps confirm that you are pulling the right information.\n    "

/-- Embedding of `get_table_schema` (`mcp_helper.py:280-303`): extract
`table_id` from the arguments and perform the single metadata fetch,
propagating whatever the warehouse call raises. -/
def get_table_schema (arguments : Args) (env : Env) :
    Except PyExc (List SchemaField) :=
  env.getTable (lookupArg arguments "table_id")

/-- Python `str` of the function object `generate_sql_query` itself.  The
INVALID branch of the source interpolates the enclosing function
(`{generate_sql_query}`, `mcp_helper.py:446`) instead of the candidate
string `generated_sql_query`; the interpolation renders the CPython
function repr (its address part is elided here), not SQL. -/
def generate_sql_query_function_repr : String := "<function generate_sql_query>"

/-- The corrective message composed on the INVALID branch
(`mcp_helper.py:445-457`).  Note its arguments: the failed SQL candidate is
not among them — the source embeds the function repr in its place. -/
def invalid_sql_message (question : String) (table_schema : List SchemaField) :
    String :=
  "This SQL query is not valid: \n                " ++
    generate_sql_query_function_repr ++
    "\n\n                Important: Guidance for presenting this sql query.\n\n                When a sql query is invalid, you can attempt to correct this query based on the user\x27s question:\n                " ++
    question ++
    "\n\n                This query that was generated from this table has the following schema:\n                " ++
    pyReprSchemaList table_schema ++
    "\n\n                It\x27s also recommended to let the user know that the first pass at generating the query failed and you are requesting user input to validate the query.\n                 "

/-- The presentation message composed on the non-INVALID branch
(`mcp_helper.py:462-486`), embedding the table, question, schema, generated
SQL, and the disclosed cost estimate. -/
def valid_sql_message (table_id question : String)
    (table_schema : List SchemaField) (generated_sql_query : String)
    (estimated_cost_usd : ℚ) (bytes_processed : ℕ) : String :=
  "This SQL statement helps pull data from the following Google BigQuery table:\n                " ++
    table_id ++
    ". \n\n                It helps answer the following question: \n                " ++
    question ++
    "\n\n                This table has the following schema:\n                " ++
    pyReprSchemaList table_schema ++
    "\n\n                Important: Guidance for presenting this query to the user\n\n                When presenting this query to the user, please wrap the query in pre tags with a class=\"sql-query\" to ensure readability. \n                It\x27s also very important to allow the user to test the query, by adding a <button class=\"execute-sql-query\">Execute SQL Query</button> at the very bottom of your response as a CTA. \n                There is already javascript on the page listening for clicks on this button. \n\n                Here is the generated sql query:\n                " ++
    generated_sql_query ++
    "   \n\n                Important: Sql Validation\n                This sql statement has been validated with the Google BigQuery QueryJobConfig method and can be executed. It is important to communicate to the user how much running this query could cost with the amounts processed for transparency reasons. \n                \n                These estimates should be share with the user and are from a dry run validation:\n                Estimated cost to run (USD): " ++
    pyStrQ estimated_cost_usd ++
    "\n                Estimated bytes processed on run: " ++
    toString bytes_processed ++ "                \n                "

/-- Embedding of `bq_sql_gnerator_system_prompt` (`mcp_helper.py:506-586`)
(the misspelling is the source's).  `current_time` stands for
`datetime.datetime.now().strftime("%Y-%m-%d %H:%M:%S")`. -/
def bq_sql_gnerator_system_prompt (user_question : String)
    (schema : List SchemaField) (table_id : String) (current_time : String) :
    String :=
  let schema_text := String.intercalate "\n"
    (schema.map (fun col => "- " ++ col.name ++ " (" ++ col.typ ++ ", " ++ col.mode ++ ")"))
  "You are an expert BigQuery SQL analyst. You write correct, optimized,\nSELECT-only SQL queries based strictly on the table schema and the user\x27s request.\nYou never guess nonexistent columns. You avoid harmful commands such as\nDELETE, UPDATE, INSERT, DROP, TRUNCATE, and CREATE.\n\n# P (Problem):\n\nThe user wants a SQL query constructed from a natural-language question.\nToday\x27s timestamp is: " ++
    current_time ++
    ".\nYou must rely ONLY on the provided schema and table ID.\nSchema:\n" ++
    schema_text ++
    "\n\nTable ID: " ++ table_id ++
    "\n\nGUIDANCE:\n- Always produce a single valid SQL SELECT statement.\n- Always wrap the table that is being selected in \x60\x60 (eg. FROM \x60project.dataset.table\x60)\n- All table names must include a project_id.datset_id.table_id. \n- Use fully qualified column names only if necessary.\n- Add WHERE filters based on the user\x27s question.\n- If the question is ambiguous, choose the safest, simplest\n  interpretation that returns meaningful results.\n- Never include ORDER BY unless explicitly requested.\n- Never hallucinate fields that do not appear in the schema.\n- Never wrap your SQL in markdown or code fences. Return raw SQL ONLY.\n\nEXAMPLE INPUT QUESTION:\n\"Show me total impressions by device for yesterday for the site \x27https://example.com\x27\"\n\nEXAMPLE SCHEMA:\n- data_date (DATE, NULLABLE)\n- site_url (STRING, NULLABLE)\n- query (STRING, NULLABLE)\n- is_anonymized_query (BOOLEAN, NULLABLE)\n- country (STRING, NULLABLE)\n- search_type (STRING, NULLABLE)\n- device (STRING, NULLABLE)\n- impressions (INTEGER, NULLABLE)\n- clicks (INTEGER, NULLABLE)\n- sum_top_position (INTEGER, NULLABLE)\n\nEXAMPLE SQL QUERY:\nSELECT\n  device,\n  SUM(impressions) AS total_impressions\nFROM \x60project.dataset.table\x60\nWHERE site_url = \x27https://example.com\x27\n  AND data_date = DATE_SUB(CURRENT_DATE(), INTERVAL 1 DAY)\nGROUP BY device;\n\nEND OF EXAMPLE.\n\nNow produce the SQL SELECT query for this user question:\n\"\"\"" ++
    user_question ++
    "\"\"\"\n\nFinal note:\nThe current time for this request is: " ++ current_time ++ "\n"

/-- Embedding of `generate_sql_query` (`mcp_helper.py:370-503`).  Argument
validation and the credential check come first; the Gemini call and its
response handling follow; a non-INVALID dry-run classification (VALID and
ERROR alike) takes the presentation branch, whose dict accesses
`query_status["estimated_cost_usd"]` / `["bytes_processed"]` raise
`KeyError` when absent, which the enclosing `except Exception` converts to
`Exception("Error processing Gemini API response: ...")`. -/
def generate_sql_query (question : Option String)
    (table_schema : List SchemaField) (table_id : Option String) (env : Env) :
    Except PyExc GeneratedQuery :=
  if pyFalsy question || pyFalsy table_id then
    Except.error (.valueError "question and table_id are required")
  else if pyFalsy env.googleAIKey then
    Except.error (.valueError "GOOGLE_AI_KEY environment variable is not set")
  else
    let questionS := pyStrOpt question
    let table_idS := pyStrOpt table_id
    let system_prompt :=
      bq_sql_gnerator_system_prompt questionS table_schema table_idS env.now
    match env.post { system_instruction := system_prompt, userText := questionS } with
    | .requestException m =>
        Except.error (.otherError ("Gemini API request failed: " ++ m))
    | .ok result =>
      match result.candidates with
      | [] =>
          Except.ok
            { sql_query := "No results generated from Gemini API"
              user_query := questionS
              status := "no_results" }
      | generated_sql_query :: _ =>
        let query_status :=
          check_query_validity_and_cost (env.dryRun generated_sql_query)
        if query_status.status = "INVALID" then
          Except.ok
            { sql_query := invalid_sql_message questionS table_schema
              user_query := questionS
              status := "success" }
        else
          match query_status.estimated_cost_usd with
          | none =>
              Except.error
                (.otherError "Error processing Gemini API response: \x27estimated_cost_usd\x27")
          | some cost =>
            match query_status.bytes_processed with
            | none =>
                Except.error
                  (.otherError "Error processing Gemini API response: \x27bytes_processed\x27")
            | some bytes =>
              Except.ok
                { sql_query :=
                    valid_sql_message table_idS questionS table_schema
                      generated_sql_query cost bytes
                  user_query := questionS
                  status := "success" }

/-- Embedding of `create_custom_sql_query_to_review`
(`mcp_helper.py:313-327`): extract `question` and `table_id`, fetch the
schema (a warehouse call whose exception propagates), then synthesize. -/
def create_custom_sql_query_to_review (arguments : Args) (env : Env) :
    Except PyExc GeneratedQuery := do
  let question := lookupArg arguments "question"
  let table_id := lookupArg arguments "table_id"
  let schema ← get_table_schema
    (match table_id with | some t => [("table_id", t)] | none => []) env
  generate_sql_query question schema table_id env

/-- The `final_results` message composed (and then discarded — the source
returns `table_str`, `mcp_helper.py:629-640`) by `run_sql_query_via_bq_api`. -/
def run_sql_final_results (sql_query : Option String) (table_str : String) :
    String :=
  "This data comes from BigQuery. It was pulled using the following query:\n    " ++
    pyStrOpt sql_query ++
    "\n\n    When presenting this information to the user, please present as a table if no other data visualizations were requested.\n    \n    It\x27s important to always show the query underneath the final data so that the user can easily understand how this data was pulled.\n\n    Here is the data:\n    " ++
    table_str ++ "    \n    "

/-- Embedding of `run_sql_query_via_bq_api` (`mcp_helper.py:605-640`): read
`sql_query` (and nothing else) from the arguments, run it, normalize every
cell through the converter, render the frame, and return the table string. -/
def run_sql_query_via_bq_api (arguments : Args) (env : Env) :
    Except PyExc String := do
  let sql_query := lookupArg arguments "sql_query"
  let rows ← env.runQuery sql_query
  let clean_rows :=
    rows.map (fun row => row.map (fun kv => (kv.1, json_serializable_converter kv.2)))
  let table_str := env.renderTable clean_rows
  let _final_results := run_sql_final_results sql_query table_str
  pure table_str

/-- One property entry of a declared `inputSchema`: its key and its
`description`; every property in the source declares `"type": "string"`. -/
structure PropertySpec where
  name : String
  description : String
deriving DecidableEq

/-- A declared tool `inputSchema` (`"type": "object"` in all four cases). -/
structure InputSchema where
  properties : List PropertySpec
  required : List String
  additionalProperties : Bool
deriving DecidableEq

/-- One entry of the `tools` array returned by `tools/list`
(`mcp_helper.py:108-177`), with its `annotations.read_only` flag. -/
structure ToolDescriptor where
  name : String
  description : String
  readOnlyAnnotation : Bool
  inputSchema : InputSchema
deriving DecidableEq

/-- Embedding of `handle_tools_list` (`mcp_helper.py:103-177`): the fixed
`tools` array of the `{"tools": [...]}` result. -/
def handle_tools_list : List ToolDescriptor :=
  [ { name := "get_list_of_datasets_by_project_id"
      description :=
        "This tool returns a list of available projects in the following project_id: " ++
          project_id ++ "."
      readOnlyAnnotation := false
      inputSchema :=
        { properties :=
            [ { name := "query"
                description := "The user\x27s question to get the list of datasets by project ID" } ]
          required := ["query"]
          additionalProperties := false } }
  , { name := "get_table_schema"
      description := "This tool returns the schema for a specific BigQuery table."
      readOnlyAnnotation := false
      inputSchema :=
        { properties :=
            [ { name := "table_id"
                description :=
                  "The ID of the table to get the schema for. e.g. \x27project_id.dataset_id.table_id\x27" } ]
          required := ["table_id"]
          additionalProperties := false } }
  , { name := "create_custom_sql_query_to_review"
      description :=
        "Create a custom SQL query for review based on a natural language question and a table ID for the user\x27s review. This must be completed prior to any execution of the query."
      readOnlyAnnotation := false
      inputSchema :=
        { properties :=
            [ { name := "question"
                description := "Natural language question to generate a SQL query for." }
            , { name := "table_id"
                description :=
                  "The ID of the table to generate a SQL query for. The complete table that is being queryed must include 3 parts. e.g. \x27" ++
                    project_id ++ ".dataset_id.table_id\x27" } ]
          required := ["question", "table_id"]
          additionalProperties := false } }
  , { name := "run_sql_query"
      description := "Run the user\x27s requested SQL query."
      readOnlyAnnotation := false
      inputSchema :=
        { properties :=
            [ { name := "sql_query"
                description :=
                  "The complete sql query with no modifications to be run on the user\x27s BigQuery instance." }
            , { name := "confirmation_key"
                description := "The key required for an LLM to run the query\x27" } ]
          required := ["sql_query", "confirmation_key"]
          additionalProperties := false } } ]

/-- The set of dispatchable tool names of `handle_tool_call`. -/
def registeredToolNames : List String :=
  [ "get_list_of_datasets_by_project_id", "get_table_schema"
  , "create_custom_sql_query_to_review", "run_sql_query" ]

/-- The `serverInfo` object of the `initialize` result. -/
structure ServerInfo where
  name : String
  version : String
deriving DecidableEq

/-- The `capabilities.tools` object of the `initialize` result. -/
structure ToolsCapability where
  list : Bool
  call : Bool
deriving DecidableEq

/-- The `initialize` result object (`mcp_helper.py:88-100`). -/
structure InitializeResult where
  protocolVersion : String
  serverInfo : ServerInfo
  capabilities : ToolsCapability
deriving DecidableEq

/-- Embedding of `handle_initialize` (`mcp_helper.py:83-100`): a fixed
capability/version announcement. -/
def handle_initialize : InitializeResult :=
  { protocolVersion := "2024-11-05"
    serverInfo := { name := "bigquery-mcp", version := "0.1.0" }
    capabilities := { list := true, call := true } }

/-- The `arguments` field of a `tools/call` request as it arrives: either
already a mapping, or a JSON-encoded string to be decoded. -/
inductive ArgsInput where
  | obj (a : Args)
  | str (s : String)

/-- The `params` of a `tools/call` request: `params.get("name")` and
`params.get("arguments", {})` (`none` components are absent keys). -/
structure ToolCallParams where
  name : Option String
  arguments : Option ArgsInput

/-- One element of a ToolCallResult `content` array:
`{"type": "text", "text": ...}`. -/
structure ContentItem where
  itemType : String
  text : String
deriving DecidableEq

/-- A tool-call result object: the optional `isError` key (absent on the
success branches, `True` on the failure branches) and the `content` array. -/
structure ToolCallResult where
  isError : Option Bool
  content : List ContentItem
deriving DecidableEq

/-- Argument resolution of `handle_tool_call` (`mcp_helper.py:183-193`):
the default `{}` for an absent key, a mapping taken as-is, and a string
pushed through `json.loads` (`none` = the decode raised). -/
def resolveArguments (env : Env) : Option ArgsInput → Option Args
  | none => some []
  | some (.obj a) => some a
  | some (.str s) => env.jsonDecode s

/-- The `Failure` result for an undecodable string `arguments`
(`mcp_helper.py:190-193`). -/
def invalidArgumentsResult : ToolCallResult :=
  { isError := some true
    content := [{ itemType := "text", text := "Invalid arguments: expected object or JSON string." }] }

/-- Embedding of `handle_tool_call` (`mcp_helper.py:181-215`): resolve the
arguments, then dispatch on the tool name, wrapping each handler's value
`data` as `{"content": [{"type": "text", "text": str(data)}]}`.  There is
no `try`/`except` around the handler calls: a handler exception propagates
(the `Except` bind).  An unregistered name yields the `Tool not found`
Failure result. -/
def handle_tool_call (params : ToolCallParams) (env : Env) :
    Except PyExc ToolCallResult :=
  let tool_name := params.name
  match resolveArguments env params.arguments with
  | none => Except.ok invalidArgumentsResult
  | some arguments =>
    if tool_name = some "get_list_of_datasets_by_project_id" then
      Except.ok
        { isError := none
          content := [{ itemType := "text"
                        text := get_list_of_datasets_by_project_id arguments env }] }
    else if tool_name = some "get_table_schema" then
      (get_table_schema arguments env).map (fun data =>
        { isError := none
          content := [{ itemType := "text", text := pyReprSchemaList data }] })
    else if tool_name = some "create_custom_sql_query_to_review" then
      (create_custom_sql_query_to_review arguments env).map (fun data =>
        { isError := none
          content := [{ itemType := "text", text := pyStrGeneratedQuery data }] })
    else if tool_name = some "run_sql_query" then
      (run_sql_query_via_bq_api arguments env).map (fun data =>
        { isError := none
          content := [{ itemType := "text", text := data }] })
    else
      Except.ok
        { isError := some true
          content := [{ itemType := "text"
                        text := "Tool not found: " ++ pyStrOpt tool_name }] }

/-- The result of one routed JSON-RPC method. -/
inductive RpcResult where
  | initResult (r : InitializeResult)
  | toolsList (tools : List ToolDescriptor)
  | callResult (r : ToolCallResult)
deriving DecidableEq

/-- Embedding of `handle_request` (`mcp_helper.py:59-76`): the top-level
method router.  An unknown method raises
`ValueError(f"Method not found: {method}")`. -/
def handle_request (method : String) (params : ToolCallParams) (env : Env) :
    Except PyExc RpcResult :=
  if method = "initialize" then Except.ok (.initResult handle_initialize)
  else if method = "tools/list" then Except.ok (.toolsList handle_tools_list)
  else if method = "tools/call" then (handle_tool_call params env).map .callResult
  else Except.error (.valueError ("Method not found: " ++ method))

/-- A one-column schema used for concrete evaluations. -/
def schemaS : List SchemaField :=
  [{ name := "id", typ := "INTEGER", mode := "REQUIRED" }]

/-- A concrete environment for closed evaluations: the codec decodes one
fixed JSON string, the warehouse has no datasets, metadata fetches succeed,
the credential is present, Gemini returns one candidate, and the dry run
reports zero bytes. -/
def happyEnv : Env :=
  { jsonDecode := fun s =>
      if s = "\x7b\"sql_query\": \"SELECT 1\", \"confirmation_key\": \"x\"\x7d" then
        some [("sql_query", "SELECT 1"), ("confirmation_key", "x")]
      else none
    datasets := Except.ok []
    getTable := fun _ => Except.ok schemaS
    googleAIKey := some "k"
    now := "2025-01-01 00:00:00"
    post := fun _ => .ok { candidates := ["SELECT 1"] }
    dryRun := fun _ => .ok 0
    runQuery := fun _ => Except.ok []
    renderTable := fun _ => "Empty DataFrame\nColumns: []\nIndex: []" }

/-- `happyEnv` with the metadata fetch and the real query run raising. -/
def errEnv2 : Env :=
  { happyEnv with
      getTable := fun _ => Except.error (.otherError "boom")
      runQuery := fun _ => Except.error (.otherError "rqboom") }

/-- `happyEnv` with the `GOOGLE_AI_KEY` environment variable unset. -/
def noKeyEnv : Env := { happyEnv with googleAIKey := none }

/-- `happyEnv` with the dry run rejecting the candidate through the
API-error channel (`GoogleAPICallError`). -/
def envInvalidDry : Env :=
  { happyEnv with dryRun := fun _ => .raiseAPI "bad query" }

/-- `happyEnv` with the dry run failing with a non-API exception. -/
def envErrorDry : Env :=
  { happyEnv with dryRun := fun _ => .raiseOther "connection reset" }




/-- Reduction of `Except.map` on a raised exception. -/
theorem except_map_error_eq {α β : Type} (f : α → β) (e : PyExc) :
    (Except.error e : Except PyExc α).map f = Except.error e := rfl

/-- Reduction of `Except.map` on a returned value. -/
theorem except_map_ok_eq {α β : Type} (f : α → β) (a : α) :
    (Except.ok a : Except PyExc α).map f = Except.ok (f a) := rfl

/-- C1: the claim says an INVALID/ERROR CostGuard outcome yields a
corrective-guidance message embedding the failed SQL, the question and the
schema, with a status distinguishable from a true success.  The code
disagrees on a concrete input: an INVALID dry run returns
`status = "success"` with the corrective message built by
`invalid_sql_message` — whose arguments are only the question and the
schema: the source interpolates the function object, never the failed SQL
candidate — and this status equals the one of a genuinely VALID run; an
ERROR dry run does not produce guidance at all but raises
`Exception("Error processing Gemini API response: 'estimated_cost_usd'")`
(a `KeyError` in the VALID presentation branch). -/
theorem c1_invalid_error_branch_code_bug :
    generate_sql_query (some "how many users?") schemaS (some "p.d.users")
        envInvalidDry =
      Except.ok
        { sql_query := invalid_sql_message "how many users?" schemaS
          user_query := "how many users?"
          status := "success" } ∧
    (∃ g, generate_sql_query (some "how many users?") schemaS (some "p.d.users")
        happyEnv = Except.ok g ∧ g.status = "success") ∧
    generate_sql_query (some "how many users?") schemaS (some "p.d.users")
        envErrorDry =
      Except.error
        (.otherError "Error processing Gemini API response: \x27estimated_cost_usd\x27") :=
  ⟨rfl, ⟨_, rfl, rfl⟩, rfl⟩

/-- C2: CostGuard classification is exhaustive and mutually exclusive —
every dry-run outcome maps to exactly one of VALID (the dry run succeeded),
INVALID (precisely the `GoogleAPICallError` channel), or ERROR (any other
exception). -/
theorem c2_costguard_classification (d : DryRunOutcome) :
    ((check_query_validity_and_cost d).status = "VALID" ∨
      (check_query_validity_and_cost d).status = "INVALID" ∨
      (check_query_validity_and_cost d).status = "ERROR") ∧
    ((check_query_validity_and_cost d).status = "VALID" ↔
      ∃ b, d = DryRunOutcome.ok b) ∧
    ((check_query_validity_and_cost d).status = "INVALID" ↔
      ∃ m, d = DryRunOutcome.raiseAPI m) ∧
    ((check_query_validity_and_cost d).status = "ERROR" ↔
      ∃ m, d = DryRunOutcome.raiseOther m) := by
  cases d <;> simp [check_query_validity_and_cost]

/-- C3: a VALID CostEstimate always carries the non-negative byte count of
the dry run, and a cost of `bytes / 2^40 * 6.25` rounded to six decimals;
in particular 2 TiB processed (2·2⁴⁰ bytes) is estimated at 12.5 USD. -/
theorem c3_valid_cost_formula (b : ℕ) :
    (check_query_validity_and_cost (.ok b)).bytes_processed = some b ∧
    (0 : ℤ) ≤ (b : ℤ) ∧
    (check_query_validity_and_cost (.ok b)).estimated_cost_usd =
      some (round6 ((b : ℚ) / 2 ^ 40 * 6.25)) ∧
    (check_query_validity_and_cost (.ok 2199023255552)).estimated_cost_usd =
      some (12.5 : ℚ) := by
  have h4 : ((1024 : ℚ) ^ 4) = 2 ^ 40 := by norm_num
  refine ⟨rfl, Int.ofNat_nonneg b, ?_, ?_⟩
  · simp only [check_query_validity_and_cost]
    rw [h4]
  · simp only [check_query_validity_and_cost]
    norm_num [round6]

/-- C4 counterexample: the claim says every handler-internal exception is
caught and converted into a Failure result.  On a concrete input — the
registered tool `get_table_schema` with the warehouse metadata call raising
— `handle_tool_call` itself raises (`Except.error`), so the exception does
propagate out of the tool-call dispatch. -/
theorem c4_handler_exception_escapes_counterexample :
    handle_tool_call
        { name := some "get_table_schema"
          arguments := some (.obj [("table_id", "proj.ds.users")]) } errEnv2 =
      Except.error (.otherError "boom") := rfl

/-- C4 amended: only unknown-tool names and argument-decode failures are
converted into Failure results; an exception raised inside a registered
handler propagates out of `handle_tool_call` unchanged (shown for the
`get_table_schema` and `run_sql_query` handlers). -/
theorem c4_handler_exception_propagates (args : Args) (env : Env) (e : PyExc)
    (hget : env.getTable (lookupArg args "table_id") = Except.error e) :
    handle_tool_call
        { name := some "get_table_schema", arguments := some (.obj args) } env =
      Except.error e ∧
    ∀ e2, env.runQuery (lookupArg args "sql_query") = Except.error e2 →
      handle_tool_call
          { name := some "run_sql_query", arguments := some (.obj args) } env =
        Except.error e2 := by
  constructor
  · simp [handle_tool_call, resolveArguments, get_table_schema, hget,
      except_map_error_eq]
  · intro e2 hrun
    simp [handle_tool_call, resolveArguments, run_sql_query_via_bq_api, hrun,
      except_map_error_eq]

/-- C4 amended, evaluated: both propagation branches at a concrete
environment whose warehouse calls raise. -/
theorem c4_handler_exception_propagates_witness :
    handle_tool_call
        { name := some "get_table_schema", arguments := some (.obj []) } errEnv2 =
      Except.error (.otherError "boom") ∧
    handle_tool_call
        { name := some "run_sql_query", arguments := some (.obj []) } errEnv2 =
      Except.error (.otherError "rqboom") :=
  ⟨(c4_handler_exception_propagates [] errEnv2 _ rfl).1,
   (c4_handler_exception_propagates [] errEnv2 (.otherError "boom") rfl).2 _ rfl⟩

/-- C5 counterexample: the claim says `tools/call` with an unregistered
tool name returns an `isError` result with a descriptive message naming
the tool.  On a concrete input whose string `arguments` fail to decode, the
call still returns an `isError` result, but its message is the fixed
decode-failure text, which does not name the tool. -/
theorem c5_unknown_tool_message_counterexample :
    handle_request "tools/call"
        { name := some "bogus_tool", arguments := some (.str "###") } happyEnv =
      Except.ok (.callResult invalidArgumentsResult) ∧
    invalidArgumentsResult.content =
      [{ itemType := "text"
         text := "Invalid arguments: expected object or JSON string." }] ∧
    "Invalid arguments: expected object or JSON string." ≠
      "Tool not found: bogus_tool" :=
  ⟨rfl, rfl, by decide⟩

/-- C5 amended: the router is asymmetric — any method outside
`initialize` / `tools/list` / `tools/call` raises
`ValueError("Method not found: ...")` and never returns; `tools/call` with
an unregistered tool name never raises and returns an `isError` result,
whose message names the tool whenever the `arguments` field resolves to a
mapping (an undecodable string yields the decode-failure message
instead). -/
theorem c5_router_asymmetry (method : String) (params : ToolCallParams)
    (env : Env) (name : String) :
    (method ∉ (["initialize", "tools/list", "tools/call"] : List String) →
      handle_request method params env =
        Except.error (.valueError ("Method not found: " ++ method))) ∧
    (params.name = some name → name ∉ registeredToolNames →
      (∃ r, handle_tool_call params env = Except.ok r ∧ r.isError = some true) ∧
      (∀ args, resolveArguments env params.arguments = some args →
        handle_tool_call params env =
          Except.ok
            { isError := some true
              content := [{ itemType := "text"
                            text := "Tool not found: " ++ name }] })) := by
  constructor
  · intro h
    simp only [List.mem_cons, List.mem_singleton, not_or] at h
    obtain ⟨h1, h2, h3⟩ := h
    simp [handle_request, h1, h2, h3]
  · intro hname hreg
    simp only [registeredToolNames, List.mem_cons, List.mem_singleton,
      List.not_mem_nil, not_or] at hreg
    obtain ⟨n1, n2, n3, n4, -⟩ := hreg
    cases hr : resolveArguments env params.arguments with
    | none =>
      refine ⟨⟨invalidArgumentsResult, ?_, rfl⟩, ?_⟩
      · simp [handle_tool_call, hr]
      · intro args hargs
        exact absurd hargs (by simp)
    | some args =>
      have hres :
          handle_tool_call params env =
            Except.ok
              { isError := some true
                content := [{ itemType := "text"
                              text := "Tool not found: " ++ name }] } := by
        simp [handle_tool_call, hr, hname, pyStrOpt, n1, n2, n3, n4]
      refine ⟨⟨_, hres, rfl⟩, ?_⟩
      intro args2 hargs2
      exact hres

/-- C5 amended, evaluated: an unknown method raises, and an unknown tool
with well-formed arguments returns the Failure result naming it. -/
theorem c5_router_asymmetry_witness :
    handle_request "frobnicate" { name := none, arguments := none } happyEnv =
      Except.error (.valueError "Method not found: frobnicate") ∧
    handle_tool_call { name := some "bogus2", arguments := none } happyEnv =
      Except.ok
        { isError := some true
          content := [{ itemType := "text", text := "Tool not found: bogus2" }] } :=
  ⟨(c5_router_asymmetry "frobnicate" { name := none, arguments := none }
      happyEnv "x").1 (by decide),
   ((c5_router_asymmetry "tools/call" { name := some "bogus2", arguments := none }
      happyEnv "bogus2").2 rfl (by decide)).2 [] rfl⟩

/-- C6: `run_sql_query_via_bq_api` reads only `sql_query` from its
arguments — two argument mappings agreeing on `sql_query` (and differing
arbitrarily in `confirmation_key`, including its absence) produce the same
result in every environment. -/
theorem c6_confirmation_key_never_read (a1 a2 : Args) (env : Env)
    (h : lookupArg a1 "sql_query" = lookupArg a2 "sql_query") :
    run_sql_query_via_bq_api a1 env = run_sql_query_via_bq_api a2 env := by
  simp only [run_sql_query_via_bq_api]
  rw [h]

/-- C6, evaluated: dropping `confirmation_key` entirely changes nothing. -/
theorem c6_confirmation_key_never_read_witness :
    lookupArg [("sql_query", "SELECT 1"), ("confirmation_key", "x")] "sql_query" =
      lookupArg [("sql_query", "SELECT 1")] "sql_query" ∧
    run_sql_query_via_bq_api
        [("sql_query", "SELECT 1"), ("confirmation_key", "x")] happyEnv =
      run_sql_query_via_bq_api [("sql_query", "SELECT 1")] happyEnv :=
  ⟨rfl, c6_confirmation_key_never_read _ _ happyEnv rfl⟩

/-- C7: SQL synthesis fails with the configuration `ValueError`s when the
question or table_id is missing/empty or when the `GOOGLE_AI_KEY`
credential is absent; in each case the result is a constant, independent of
every network-backed component of the environment — i.e. the failure is
raised before any network call. -/
theorem c7_configuration_errors (question table_id : Option String)
    (schema : List SchemaField) (env : Env) :
    ((pyFalsy question || pyFalsy table_id) = true →
      generate_sql_query question schema table_id env =
        Except.error (.valueError "question and table_id are required") ∧
      ∀ env2 : Env, generate_sql_query question schema table_id env =
        generate_sql_query question schema table_id env2) ∧
    (pyFalsy question = false → pyFalsy table_id = false →
      pyFalsy env.googleAIKey = true →
      generate_sql_query question schema table_id env =
        Except.error (.valueError "GOOGLE_AI_KEY environment variable is not set") ∧
      ∀ env2 : Env, pyFalsy env2.googleAIKey = true →
        generate_sql_query question schema table_id env2 =
          generate_sql_query question schema table_id env) := by
  constructor
  · intro h
    constructor
    · simp [generate_sql_query, h]
    · intro env2
      simp [generate_sql_query, h]
  · intro hq ht hk
    constructor
    · simp [generate_sql_query, hq, ht, hk]
    · intro env2 hk2
      simp [generate_sql_query, hq, ht, hk, hk2]

/-- C7, evaluated: a missing question and a missing credential each yield
their configuration error on concrete inputs. -/
theorem c7_configuration_errors_witness :
    generate_sql_query none [] (some "p.d.t") happyEnv =
      Except.error (.valueError "question and table_id are required") ∧
    generate_sql_query (some "q") [] (some "p.d.t") noKeyEnv =
      Except.error (.valueError "GOOGLE_AI_KEY environment variable is not set") :=
  ⟨((c7_configuration_errors none (some "p.d.t") [] happyEnv).1 rfl).1,
   ((c7_configuration_errors (some "q") (some "p.d.t") [] noKeyEnv).2 rfl rfl rfl).1⟩

/-- C8 counterexample: the claim says each declared `required` list matches
the arguments the handler actually requires.  Concretely, the first
descriptor declares `required = ["query"]`, yet
`get_list_of_datasets_by_project_id` returns the identical value with and
without a `query` argument; likewise `run_sql_query` declares
`confirmation_key` required but returns the identical value without it. -/
theorem c8_required_mismatch_counterexample :
    (handle_tools_list.map (fun d => d.inputSchema.required)).head? =
      some ["query"] ∧
    get_list_of_datasets_by_project_id [] happyEnv =
      get_list_of_datasets_by_project_id [("query", "list my datasets")] happyEnv ∧
    run_sql_query_via_bq_api
        [("sql_query", "SELECT 1"), ("confirmation_key", "x")] happyEnv =
      run_sql_query_via_bq_api [("sql_query", "SELECT 1")] happyEnv :=
  ⟨rfl, rfl, rfl⟩

/-- C8 amended: `tools/list` returns exactly the four declared descriptors,
each with `additionalProperties: false` and a non-empty `required` list as
declared in the source; but the declared lists only over-approximate what
the handlers read: `get_list_of_datasets_by_project_id` reads no argument
at all, and `run_sql_query` never reads `confirmation_key`. -/
theorem c8_tools_list_shape (d : ToolDescriptor) (hd : d ∈ handle_tools_list) :
    handle_tools_list.map (fun t => t.name) = registeredToolNames ∧
    d.inputSchema.additionalProperties = false ∧
    d.inputSchema.required ≠ [] ∧
    handle_tools_list.map (fun t => t.inputSchema.required) =
      [["query"], ["table_id"], ["question", "table_id"],
        ["sql_query", "confirmation_key"]] ∧
    (∀ a1 a2 : Args, ∀ env : Env,
      get_list_of_datasets_by_project_id a1 env =
        get_list_of_datasets_by_project_id a2 env) ∧
    (∀ a1 a2 : Args, ∀ env : Env,
      lookupArg a1 "sql_query" = lookupArg a2 "sql_query" →
      run_sql_query_via_bq_api a1 env = run_sql_query_via_bq_api a2 env) := by
  refine ⟨rfl, ?_, ?_, rfl, ?_, ?_⟩
  · fin_cases hd <;> rfl
  · fin_cases hd <;> decide
  · intro a1 a2 env
    rfl
  · intro a1 a2 env h
    simp only [run_sql_query_via_bq_api]
    rw [h]

/-- C8 amended, evaluated at the first descriptor. -/
theorem c8_tools_list_shape_witness :
    handle_tools_list.map (fun t => t.name) = registeredToolNames :=
  (c8_tools_list_shape (handle_tools_list.get ⟨0, by decide⟩)
    (List.get_mem _ _ _)).1

/-- C9: a string-encoded `arguments` field is decoded before dispatch and
the call behaves exactly as if the decoded mapping had been passed
directly; a failing decode returns the Failure result instead of
raising. -/
theorem c9_string_arguments_decoded (name : Option String) (s : String)
    (o : Args) (env : Env) :
    (env.jsonDecode s = some o →
      handle_tool_call { name := name, arguments := some (.str s) } env =
        handle_tool_call { name := name, arguments := some (.obj o) } env) ∧
    (env.jsonDecode s = none →
      handle_tool_call { name := name, arguments := some (.str s) } env =
        Except.ok invalidArgumentsResult) := by
  constructor <;> intro h <;>
    simp [handle_tool_call, resolveArguments, h]

/-- C9, evaluated on the spec's scenario: string-encoded `run_sql_query`
arguments behave as the object form, and an undecodable string yields the
Failure result. -/
theorem c9_string_arguments_decoded_witness :
    handle_tool_call
        { name := some "run_sql_query"
          arguments :=
            some (.str "\x7b\"sql_query\": \"SELECT 1\", \"confirmation_key\": \"x\"\x7d") }
        happyEnv =
      handle_tool_call
        { name := some "run_sql_query"
          arguments :=
            some (.obj [("sql_query", "SELECT 1"), ("confirmation_key", "x")]) }
        happyEnv ∧
    handle_tool_call
        { name := some "run_sql_query", arguments := some (.str "not json") }
        happyEnv =
      Except.ok invalidArgumentsResult :=
  ⟨(c9_string_arguments_decoded (some "run_sql_query") _ _ happyEnv).1 rfl,
   (c9_string_arguments_decoded (some "run_sql_query") "not json" [] happyEnv).2 rfl⟩

/-- C10: whenever the tool-call dispatcher returns (rather than raises),
the result's `content` is a single `{type: "text", text: ...}` element, and
on the success shape (no `isError` key) the text is exactly the string
rendering of the invoked handler's result. -/
theorem c10_dispatch_result_shape (params : ToolCallParams) (env : Env)
    (r : ToolCallResult) (h : handle_tool_call params env = Except.ok r) :
    (∃ s, r.content = [{ itemType := "text", text := s }]) ∧
    (r.isError = none →
      ∃ args, resolveArguments env params.arguments = some args ∧
        ((params.name = some "get_list_of_datasets_by_project_id" ∧
            r.content =
              [{ itemType := "text"
                 text := get_list_of_datasets_by_project_id args env }]) ∨
         (params.name = some "get_table_schema" ∧
            ∃ d, get_table_schema args env = Except.ok d ∧
              r.content = [{ itemType := "text", text := pyReprSchemaList d }]) ∨
         (params.name = some "create_custom_sql_query_to_review" ∧
            ∃ d, create_custom_sql_query_to_review args env = Except.ok d ∧
              r.content = [{ itemType := "text", text := pyStrGeneratedQuery d }]) ∨
         (params.name = some "run_sql_query" ∧
            ∃ d, run_sql_query_via_bq_api args env = Except.ok d ∧
              r.content = [{ itemType := "text", text := d }]))) := by
  unfold handle_tool_call at h
  cases hr : resolveArguments env params.arguments with
  | none =>
    rw [hr] at h
    dsimp only at h
    simp only [Except.ok.injEq] at h
    subst h
    exact ⟨⟨_, rfl⟩, fun hi => by simp [invalidArgumentsResult] at hi⟩
  | some args =>
    rw [hr] at h
    dsimp only at h
    by_cases h1 : params.name = some "get_list_of_datasets_by_project_id"
    · rw [if_pos h1] at h
      simp only [Except.ok.injEq] at h
      subst h
      exact ⟨⟨_, rfl⟩, fun _ => ⟨args, rfl, Or.inl ⟨h1, rfl⟩⟩⟩
    · rw [if_neg h1] at h
      by_cases h2 : params.name = some "get_table_schema"
      · rw [if_pos h2] at h
        cases hx : get_table_schema args env with
        | error e =>
          rw [hx, except_map_error_eq] at h
          exact absurd h (by simp)
        | ok d =>
          rw [hx, except_map_ok_eq] at h
          simp only [Except.ok.injEq] at h
          subst h
          exact ⟨⟨_, rfl⟩, fun _ => ⟨args, rfl, Or.inr (Or.inl ⟨h2, d, hx, rfl⟩)⟩⟩
      · rw [if_neg h2] at h
        by_cases h3 : params.name = some "create_custom_sql_query_to_review"
        · rw [if_pos h3] at h
          cases hx : create_custom_sql_query_to_review args env with
          | error e =>
            rw [hx, except_map_error_eq] at h
            exact absurd h (by simp)
          | ok d =>
            rw [hx, except_map_ok_eq] at h
            simp only [Except.ok.injEq] at h
            subst h
            exact ⟨⟨_, rfl⟩, fun _ =>
              ⟨args, rfl, Or.inr (Or.inr (Or.inl ⟨h3, d, hx, rfl⟩))⟩⟩
        · rw [if_neg h3] at h
          by_cases h4 : params.name = some "run_sql_query"
          · rw [if_pos h4] at h
            cases hx : run_sql_query_via_bq_api args env with
            | error e =>
              rw [hx, except_map_error_eq] at h
              exact absurd h (by simp)
            | ok d =>
              rw [hx, except_map_ok_eq] at h
              simp only [Except.ok.injEq] at h
              subst h
              exact ⟨⟨_, rfl⟩, fun _ =>
                ⟨args, rfl, Or.inr (Or.inr (Or.inr ⟨h4, d, hx, rfl⟩))⟩⟩
          · rw [if_neg h4] at h
            simp only [Except.ok.injEq] at h
            subst h
            exact ⟨⟨_, rfl⟩, fun hi => by simp at hi⟩

/-- C10, evaluated: the single-text-content shape at a concrete successful
dispatch. -/
theorem c10_dispatch_result_shape_witness :
    ∃ s,
      ({ isError := none
         content := [{ itemType := "text"
                       text := "No datasets found in this project." }] } :
          ToolCallResult).content = [{ itemType := "text", text := s }] :=
  (c10_dispatch_result_shape
    { name := some "get_list_of_datasets_by_project_id", arguments := none }
    happyEnv
    { isError := none
      content := [{ itemType := "text"
                    text := "No datasets found in this project." }] }
    rfl).1
